import Mathlib

/-!
Verification of the pyrenew hospital-admissions components.

A shallow embedding of `pyrenew/latent/hospitaladmissions.py` and
`pyrenew/model/admissionsmodel.py`.  Numeric arrays become `List ℚ`;
each stochastic sub-process is represented by the value it samples
(the caller threads the randomness context, so within one `sample`
call the drawn values are fixed data); fallible paths return
`Option`/`Except`.  Python `a[i:]` slicing (signed start index) is
modelled by `pySlice`.
-/

/-- Entry `k` of the full discrete convolution of `a` and `v`:
`(a ⋆ v)[k] = Σ_i a[i] · v[k - i]`, out-of-range reads contributing `0`. -/
def convEntry (a v : List ℚ) (k : ℕ) : ℚ :=
  ∑ i ∈ Finset.range (k + 1), a.getD i 0 * v.getD (k - i) 0

/-- `jnp.convolve(a, v, mode="full")`: length `a.length + v.length - 1`,
entry `k` given by `convEntry`. -/
def fullConv (a v : List ℚ) : List ℚ :=
  (List.range (a.length + v.length - 1)).map (convEntry a v)

/-- Output container of `HospitalAdmissions.sample`
(`HospitalAdmissionsSample` in `hospitaladmissions.py`). -/
structure HospitalAdmissionsSample where
  infection_hosp_rate : ℚ
  latent_hospital_admissions : List ℚ
deriving DecidableEq, Repr

/-- `HospitalAdmissions.sample` from `hospitaladmissions.py`, with the values
drawn from the four sub-processes passed explicitly: `rate` from
`infect_hosp_rate_rv`, `delay` from `infection_to_admission_interval_rv`,
`weekday` from `day_of_week_effect_rv` and `report` from
`hosp_report_prob_rv` (the latter three taken in the scalar-broadcast case).
The rate-scaled infections are convolved with the delay pmf in "full" mode
and truncated to the first `latent_infections.length` entries; the weekday
and reporting factors multiply in afterwards.  `jnp.convolve` raises on an
empty operand, modelled by `none`. -/
def HospitalAdmissions.sample (rate weekday report : ℚ) (delay : List ℚ)
    (latent_infections : List ℚ) : Option HospitalAdmissionsSample :=
  if latent_infections = [] ∨ delay = [] then none
  else
    let infection_hosp_rate_t := latent_infections.map (fun x => rate * x)
    let conv := (fullConv infection_hosp_rate_t delay).take
      infection_hosp_rate_t.length
    let withWeekday := conv.map (fun x => x * weekday)
    let final := withWeekday.map (fun x => x * report)
    some ⟨rate, final⟩

/-- A handle supplied as a sub-process argument; `is_random_variable` records
whether the object is an instance of the `RandomVariable` capability (what the
Python `isinstance(·, RandomVariable)` assertion inspects). -/
structure RVHandle where
  is_random_variable : Bool
deriving DecidableEq, Repr

/-- The four handles stored on a constructed `HospitalAdmissions` component. -/
structure HospitalAdmissionsComponent where
  infection_to_admission_interval_rv : RVHandle
  infect_hosp_rate_rv : RVHandle
  day_of_week_effect_rv : RVHandle
  hosp_report_prob_rv : RVHandle
deriving DecidableEq, Repr

/-- `HospitalAdmissions.validate`: asserts that the rate, weekday-effect and
reporting-probability handles are `RandomVariable` instances (Python
`assert isinstance(...)`, raising `AssertionError` on failure). -/
def HospitalAdmissions.validate
    (infect_hosp_rate_rv day_of_week_effect_rv hosp_report_prob_rv : RVHandle) :
    Except String Unit :=
  if !infect_hosp_rate_rv.is_random_variable then
    Except.error "AssertionError: infect_hosp_rate_rv"
  else if !day_of_week_effect_rv.is_random_variable then
    Except.error "AssertionError: day_of_week_effect_rv"
  else if !hosp_report_prob_rv.is_random_variable then
    Except.error "AssertionError: hosp_report_prob_rv"
  else Except.ok ()

/-- `HospitalAdmissions.__init__`: defaults the optional weekday-effect and
reporting-probability handles to `DeterministicVariable` instances (which are
`RandomVariable`s, hence `⟨true⟩`), runs `validate` on the rate, weekday and
reporting handles, and stores all four handles.  The delay handle
(`infection_to_admission_interval_rv`) is stored without being validated. -/
def HospitalAdmissions.init
    (infection_to_admission_interval_rv infect_hosp_rate_rv : RVHandle)
    (day_of_week_effect_rv hosp_report_prob_rv : Option RVHandle) :
    Except String HospitalAdmissionsComponent :=
  let dow := day_of_week_effect_rv.getD ⟨true⟩
  let rep := hosp_report_prob_rv.getD ⟨true⟩
  (HospitalAdmissions.validate infect_hosp_rate_rv dow rep).map fun _ =>
    ⟨infection_to_admission_interval_rv, infect_hosp_rate_rv, dow, rep⟩

/-- Python `l[i:]` for a signed start index `i`: a negative start counts from
the end (clamped at `0`), a start past the end yields `[]`. -/
def pySlice {α : Type} (l : List α) (i : ℤ) : List α :=
  l.drop (if i < 0 then ((l.length : ℤ) + i).toNat else i.toNat)

/-- Modelled from the spec: `pyrenew.arrayutils.pad_x_to_match_y` (the module
is not under `src/`) called with `pad_direction="start"` left-pads `x` with
the fill marker so that its length matches the target length. -/
def pad_x_to_match_y {α : Type} (x : List α) (y_length : ℕ) (fill : α) :
    List α :=
  List.replicate (y_length - x.length) fill ++ x

/-- Modelled from the spec: the result of `RtInfectionsRenewalModel.sample`
(the module is not under `src/`), exposing the `Rt` and `latent_infections`
fields that `HospitalAdmissionsModel.sample` reads. -/
structure BasicModelSample where
  Rt : List ℚ
  latent_infections : List ℚ
deriving DecidableEq, Repr

/-- Output container of `HospitalAdmissionsModel.sample`
(`HospModelSample` in `admissionsmodel.py`).  `observed_hosp_admissions = none`
models the Python `None` (field absent). -/
structure HospModelSample where
  Rt : List ℚ
  latent_infections : List ℚ
  infection_hosp_rate : ℚ
  latent_hosp_admissions : List ℚ
  observed_hosp_admissions : Option (List ℚ)
deriving DecidableEq, Repr

/-- A `HospitalAdmissionsModel` instance, with each collaborator represented
by its sample behaviour: `basic_renewal` maps `(n_timepoints, padding)` to the
inner renewal model's sample (modelled from the spec, the module is not under
`src/`); `latent_hosp_admissions_rv` maps the latent infections to the first
two components of the latent-admissions sample (`none` models a raised
error); `hosp_admission_obs_process_rv` maps `(mu, obs)` to the observation
sample, the `obs` argument carrying `none` entries for not-a-number padding
markers. -/
structure HospitalAdmissionsModel where
  basic_renewal : ℕ → ℕ → BasicModelSample
  latent_hosp_admissions_rv : List ℚ → Option (ℚ × List ℚ)
  hosp_admission_obs_process_rv :
    Option (List ℚ → Option (List (Option ℚ)) → List ℚ)

/-- Resolution of `n_timepoints` in `HospitalAdmissionsModel.sample`:
the explicit `n_timepoints_to_simulate`, else the observed-data length. -/
def resolve_n_timepoints (n_timepoints_to_simulate : Option ℕ)
    (data_observed_hosp_admissions : Option (List ℚ)) : ℕ :=
  match n_timepoints_to_simulate with
  | some n => n
  | none => (data_observed_hosp_admissions.getD []).length

/-- The mean series handed to the observation process in fit mode:
`latent_hosp_admissions[i0_size + padding:]`. -/
def fitMean (latent_hosp_admissions : List ℚ) (offset : ℤ) : List ℚ :=
  pySlice latent_hosp_admissions offset

/-- The observed series handed to the observation process in fit mode:
the observed data left-padded with not-a-number markers (`none`) to the
latent-admissions length, then sliced as `[i0_size + padding:]`. -/
def fitObserved (data : List ℚ) (latent_length : ℕ) (offset : ℤ) :
    List (Option ℚ) :=
  pySlice (pad_x_to_match_y (data.map some) latent_length none) offset

/-- The spec's description of the fit window handed to the observation
process: the observed data with its first `padding` entries removed (and no
not-a-number markers). -/
def specObservedWindow (data : List ℚ) (padding : ℕ) : List (Option ℚ) :=
  (data.drop padding).map some

/-- `HospitalAdmissionsModel.sample` from `admissionsmodel.py`.  Checks the
exactly-one-of precondition on the two time-extent arguments, resolves
`n_timepoints`, samples the inner renewal model and the latent admissions,
computes `i0_size = len(latent_hosp_admissions) - n_timepoints` (a Python
`int`, hence `ℤ`), then drives the observation process: absent process →
no observation; simulate mode → full mean series and no observed data;
fit mode → both series sliced from `i0_size + padding` with the observed
data not-a-number-padded first. -/
def HospitalAdmissionsModel.sample (m : HospitalAdmissionsModel)
    (n_timepoints_to_simulate : Option ℕ)
    (data_observed_hosp_admissions : Option (List ℚ))
    (padding : ℕ) : Except String HospModelSample :=
  if n_timepoints_to_simulate = none ∧ data_observed_hosp_admissions = none
  then
    Except.error
      "Either n_timepoints_to_simulate or data_observed_hosp_admissions must be passed."
  else if n_timepoints_to_simulate ≠ none
      ∧ data_observed_hosp_admissions ≠ none then
    Except.error
      "Cannot pass both n_timepoints_to_simulate and data_observed_hosp_admissions."
  else
    let n_timepoints := resolve_n_timepoints n_timepoints_to_simulate
      data_observed_hosp_admissions
    let basic_model := m.basic_renewal n_timepoints padding
    match m.latent_hosp_admissions_rv basic_model.latent_infections with
    | none => Except.error "latent hospital admissions sampling raised"
    | some (infection_hosp_rate, latent_hosp_admissions) =>
      let i0_size : ℤ := (latent_hosp_admissions.length : ℤ) - n_timepoints
      let observed_hosp_admissions : Option (List ℚ) :=
        match m.hosp_admission_obs_process_rv with
        | none => none
        | some obs_process =>
          match data_observed_hosp_admissions with
          | none => some (obs_process latent_hosp_admissions none)
          | some data =>
            some (obs_process
              (fitMean latent_hosp_admissions (i0_size + padding))
              (some (fitObserved data latent_hosp_admissions.length
                (i0_size + padding))))
      Except.ok ⟨basic_model.Rt, basic_model.latent_infections,
        infection_hosp_rate, latent_hosp_admissions,
        observed_hosp_admissions⟩

/-- A concrete model instance used to witness the model-level theorems: the
inner renewal model produces two initialization timepoints in front of the
requested window, the latent-admissions process passes the infections through
with rate `1/2`, and the observation process echoes its mean argument. -/
def demoModel : HospitalAdmissionsModel where
  basic_renewal := fun n _ => ⟨[3], List.replicate (n + 2) 1⟩
  latent_hosp_admissions_rv := fun inf => some (1/2, inf)
  hosp_admission_obs_process_rv := some (fun mu _ => mu)

/-- A concrete model instance with no observation process configured. -/
def mNoObs : HospitalAdmissionsModel where
  basic_renewal := fun n _ => ⟨[3], List.replicate (n + 2) 1⟩
  latent_hosp_admissions_rv := fun inf => some (1/2, inf)
  hosp_admission_obs_process_rv := none

/-! ## Helper lemmas about the convolution -/

theorem fullConv_length (a v : List ℚ) :
    (fullConv a v).length = a.length + v.length - 1 := by
  simp [fullConv]

theorem getD_singleton (x : ℚ) (n : ℕ) :
    ([x] : List ℚ).getD n 0 = if n = 0 then x else 0 := by
  cases n <;> simp

theorem convEntry_single (a : List ℚ) (k : ℕ) :
    convEntry a [1] k = a.getD k 0 := by
  unfold convEntry
  have h : ∀ i ∈ Finset.range (k + 1),
      a.getD i 0 * ([1] : List ℚ).getD (k - i) 0
        = if i = k then a.getD i 0 else 0 := by
    intro i hi
    rw [Finset.mem_range] at hi
    rcases eq_or_ne i k with rfl | hne
    · simp [getD_singleton]
    · have hki : k - i ≠ 0 := by omega
      have h0 : ([1] : List ℚ).getD (k - i) 0 = 0 := by
        rw [getD_singleton]
        simp [hki]
      rw [h0, mul_zero, if_neg hne]
  rw [Finset.sum_congr rfl h, Finset.sum_ite_eq']
  simp

theorem range_map_getD (a : List ℚ) :
    (List.range a.length).map (fun k => a.getD k 0) = a := by
  apply List.ext_getElem
  · simp
  · intro i h1 h2
    simp [List.getD_eq_getElem?_getD, List.getElem?_eq_getElem h2]

theorem fullConv_single (a : List ℚ) : fullConv a [1] = a := by
  unfold fullConv
  simp only [List.length_singleton]
  have hlen : a.length + 1 - 1 = a.length := by omega
  rw [hlen]
  calc (List.range a.length).map (convEntry a [1])
      = (List.range a.length).map (fun k => a.getD k 0) := by
        apply List.map_congr_left
        intro k _
        exact convEntry_single a k
    _ = a := range_map_getD a

theorem getD_map_mul (c : ℚ) (a : List ℚ) (i : ℕ) :
    (a.map (fun x => c * x)).getD i 0 = c * a.getD i 0 := by
  rcases lt_or_ge i a.length with h | h
  · rw [List.getD_eq_getElem _ _ (by simpa using h),
      List.getD_eq_getElem _ _ h, List.getElem_map]
  · rw [List.getD_eq_default _ _ (by simpa using h),
      List.getD_eq_default _ _ h, mul_zero]

theorem convEntry_smul (c : ℚ) (a v : List ℚ) (k : ℕ) :
    convEntry (a.map (fun x => c * x)) v k = c * convEntry a v k := by
  unfold convEntry
  rw [Finset.mul_sum]
  apply Finset.sum_congr rfl
  intro i _
  rw [getD_map_mul, mul_assoc]

theorem fullConv_smul (c : ℚ) (a v : List ℚ) :
    fullConv (a.map (fun x => c * x)) v
      = (fullConv a v).map (fun x => c * x) := by
  unfold fullConv
  rw [List.length_map, List.map_map]
  apply List.map_congr_left
  intro k _
  exact convEntry_smul c a v k

/-! ## Claim theorems for the latent component -/

/-- Claim C1: with a delay pmf `[1/2, 1/2]`, a constant rate `1/10` and weekday and
reporting factors `1`, sampling on `latent_infections = [100, 100, 100]`
returns rate `1/10` and admissions `[5, 10, 10]` — the full convolution
`[5, 10, 10, 5]` truncated to length 3. -/
theorem round_trip_scenario :
    HospitalAdmissions.sample (1/10) 1 1 [1/2, 1/2] [100, 100, 100]
      = some ⟨1/10, [5, 10, 10]⟩ := by
  simp [HospitalAdmissions.sample, fullConv, convEntry, List.range_succ,
    Finset.sum_range_succ]
  norm_num

/-- Claim C2: whenever `HospitalAdmissions.sample` returns a sample, the
latent-admissions series has length exactly `latent_infections.length`,
whatever the delay-distribution's length: the full-mode convolution is
truncated back to the input length. -/
theorem sample_output_length (rate weekday report : ℚ)
    (delay latent_infections : List ℚ) (s : HospitalAdmissionsSample)
    (h : HospitalAdmissions.sample rate weekday report delay latent_infections
      = some s) :
    s.latent_hospital_admissions.length = latent_infections.length := by
  unfold HospitalAdmissions.sample at h
  by_cases hc : latent_infections = [] ∨ delay = []
  · rw [if_pos hc] at h
    exact absurd h (by simp)
  · rw [if_neg hc] at h
    push_neg at hc
    replace h := Option.some.inj h
    subst h
    have hd : delay.length ≠ 0 := by
      simpa [List.length_eq_zero] using hc.2
    simp [List.length_take, fullConv_length]
    omega

/-- Claim C2 witness: at rate 1, delay `[1/2, 1/2]` and infections `[1, 2, 3]`
the sample succeeds and the admissions series has length 3. -/
theorem sample_output_length_witness :
    (⟨1, [1/2, 3/2, 5/2]⟩ :
        HospitalAdmissionsSample).latent_hospital_admissions.length
      = ([1, 2, 3] : List ℚ).length :=
  sample_output_length 1 1 1 [1/2, 1/2] [1, 2, 3] ⟨1, [1/2, 3/2, 5/2]⟩
    (by simp [HospitalAdmissions.sample, fullConv, convEntry, List.range_succ,
          Finset.sum_range_succ]
        norm_num)

/-- Claim C7: with the zero-delay pmf `[1]` and weekday and reporting factors `1`,
the sampled admissions equal the rate times the infections, elementwise. -/
theorem zero_delay_identity (rate : ℚ) (latent_infections : List ℚ)
    (h : latent_infections ≠ []) :
    HospitalAdmissions.sample rate 1 1 [1] latent_infections
      = some ⟨rate, latent_infections.map (fun x => rate * x)⟩ := by
  unfold HospitalAdmissions.sample
  rw [if_neg (by simp [h])]
  simp [fullConv_single, List.take_length, mul_one]
  rw [List.take_of_length_le (by simp)]
  apply List.map_congr_left
  intro x _
  simp

/-- Claim C7 witness: at rate 2 on infections `[3, 4]` the sample is
`(2, [6, 8]) = (2, 2 * [3, 4])`. -/
theorem zero_delay_identity_witness :
    [3, 4] ≠ ([] : List ℚ)
    ∧ HospitalAdmissions.sample 2 1 1 [1] [3, 4]
        = some ⟨2, ([3, 4] : List ℚ).map (fun x => 2 * x)⟩ :=
  ⟨by simp, zero_delay_identity 2 [3, 4] (by simp)⟩

/-- Claim C8: `HospitalAdmissions.sample` is linear in the sampled rate — doubling
the rate doubles every entry of the admissions series (and the returned
rate), for any fixed delay, weekday and reporting values. -/
theorem rate_doubling (rate weekday report : ℚ)
    (delay latent_infections : List ℚ) :
    HospitalAdmissions.sample (2 * rate) weekday report delay latent_infections
      = (HospitalAdmissions.sample rate weekday report delay
          latent_infections).map
        (fun s => ⟨2 * s.infection_hosp_rate,
          s.latent_hospital_admissions.map (fun x => 2 * x)⟩) := by
  unfold HospitalAdmissions.sample
  by_cases hc : latent_infections = [] ∨ delay = []
  · rw [if_pos hc, if_pos hc]
    rfl
  · rw [if_neg hc, if_neg hc]
    simp only [Option.map_some]
    have hmap : latent_infections.map (fun x => 2 * rate * x)
        = (latent_infections.map (fun x => rate * x)).map (fun x => 2 * x) := by
      rw [List.map_map]
      apply List.map_congr_left
      intro x _
      simp [Function.comp]
      ring
    rw [hmap, fullConv_smul]
    congr 1
    simp only [List.length_map]
    rw [← List.map_take, List.map_map, List.map_map, List.map_map,
      List.map_map]
    apply congrArg
    apply List.map_congr_left
    intro x _
    simp [Function.comp]
    ring

/-! ## Helper lemmas about slicing and padding -/

theorem pySlice_length_of_nonneg {α : Type} (l : List α) (i : ℤ) (h : 0 ≤ i) :
    (pySlice l i).length = l.length - i.toNat := by
  unfold pySlice
  rw [if_neg (by omega)]
  simp [List.length_drop]

theorem fitObserved_eq_specWindow (data : List ℚ) (latent_length padding : ℕ)
    (h : data.length ≤ latent_length) :
    fitObserved data latent_length
        ((latent_length : ℤ) - data.length + padding)
      = specObservedWindow data padding := by
  unfold fitObserved specObservedWindow pySlice pad_x_to_match_y
  rw [if_neg (by omega), List.length_map]
  have h1 : ((latent_length : ℤ) - data.length + padding).toNat
      = (latent_length - data.length) + padding := by omega
  rw [h1]
  have h2 := @List.drop_append (Option ℚ)
    (List.replicate (latent_length - data.length) none) (data.map some)
    padding
  rw [List.length_replicate] at h2
  rw [h2, List.map_drop]

/-- Evaluation of `HospitalAdmissionsModel.sample` on the fit-mode path:
with an observation process configured and observed data supplied, the
sampled record carries the inner model's `Rt` and `latent_infections`, and
the observation process is applied to `fitMean` and `fitObserved` at offset
`i0_size + padding`. -/
theorem sample_fit_eval (m : HospitalAdmissionsModel)
    (f : List ℚ → Option (List (Option ℚ)) → List ℚ)
    (data : List ℚ) (padding : ℕ) (r : ℚ) (adm : List ℚ)
    (hobs : m.hosp_admission_obs_process_rv = some f)
    (hlat : m.latent_hosp_admissions_rv
        (m.basic_renewal data.length padding).latent_infections
      = some (r, adm)) :
    m.sample none (some data) padding = Except.ok
      ⟨(m.basic_renewal data.length padding).Rt,
       (m.basic_renewal data.length padding).latent_infections, r, adm,
       some (f
         (fitMean adm ((adm.length : ℤ) - data.length + padding))
         (some (fitObserved data adm.length
           ((adm.length : ℤ) - data.length + padding))))⟩ := by
  unfold HospitalAdmissionsModel.sample
  rw [if_neg (by simp), if_neg (by simp)]
  have hres : resolve_n_timepoints none (some data) = data.length := rfl
  simp only [hres, hlat, hobs]

/-- Evaluation of `HospitalAdmissionsModel.sample` on the fit-mode path for
an arbitrary (possibly absent) observation process. -/
theorem sample_fit_eval_gen (m : HospitalAdmissionsModel)
    (data : List ℚ) (padding : ℕ) (r : ℚ) (adm : List ℚ)
    (hlat : m.latent_hosp_admissions_rv
        (m.basic_renewal data.length padding).latent_infections
      = some (r, adm)) :
    m.sample none (some data) padding = Except.ok
      ⟨(m.basic_renewal data.length padding).Rt,
       (m.basic_renewal data.length padding).latent_infections, r, adm,
       m.hosp_admission_obs_process_rv.map (fun f =>
         f (fitMean adm ((adm.length : ℤ) - data.length + padding))
           (some (fitObserved data adm.length
             ((adm.length : ℤ) - data.length + padding))))⟩ := by
  unfold HospitalAdmissionsModel.sample
  rw [if_neg (by simp), if_neg (by simp)]
  have hres : resolve_n_timepoints none (some data) = data.length := rfl
  simp only [hres, hlat]
  cases hob : m.hosp_admission_obs_process_rv <;> rfl

/-- Evaluation of `HospitalAdmissionsModel.sample` on the simulate-mode path
for an arbitrary (possibly absent) observation process: the observation
process, when present, receives the full latent series and no observed
data. -/
theorem sample_simulate_eval (m : HospitalAdmissionsModel)
    (n padding : ℕ) (r : ℚ) (adm : List ℚ)
    (hlat : m.latent_hosp_admissions_rv
        (m.basic_renewal n padding).latent_infections = some (r, adm)) :
    m.sample (some n) none padding = Except.ok
      ⟨(m.basic_renewal n padding).Rt,
       (m.basic_renewal n padding).latent_infections, r, adm,
       m.hosp_admission_obs_process_rv.map (fun f => f adm none)⟩ := by
  unfold HospitalAdmissionsModel.sample
  rw [if_neg (by simp), if_neg (by simp)]
  have hres : resolve_n_timepoints (some n) none = n := rfl
  simp only [hres, hlat]
  cases hob : m.hosp_admission_obs_process_rv <;> rfl

/-- A raised error in the latent-admissions sampling propagates unchanged
out of the fit-mode path. -/
theorem sample_latent_err_fit (m : HospitalAdmissionsModel)
    (data : List ℚ) (padding : ℕ)
    (hlat : m.latent_hosp_admissions_rv
        (m.basic_renewal data.length padding).latent_infections = none) :
    m.sample none (some data) padding
      = Except.error "latent hospital admissions sampling raised" := by
  unfold HospitalAdmissionsModel.sample
  rw [if_neg (by simp), if_neg (by simp)]
  have hres : resolve_n_timepoints none (some data) = data.length := rfl
  simp only [hres, hlat]

/-- A raised error in the latent-admissions sampling propagates unchanged
out of the simulate-mode path. -/
theorem sample_latent_err_simulate (m : HospitalAdmissionsModel)
    (n padding : ℕ)
    (hlat : m.latent_hosp_admissions_rv
        (m.basic_renewal n padding).latent_infections = none) :
    m.sample (some n) none padding
      = Except.error "latent hospital admissions sampling raised" := by
  unfold HospitalAdmissionsModel.sample
  rw [if_neg (by simp), if_neg (by simp)]
  have hres : resolve_n_timepoints (some n) none = n := rfl
  simp only [hres, hlat]

/-! ## Claim theorems for the composing model -/

/-- Claim C3: in fit mode, with observed data of length `L` and the latent
admissions series of length `L + i0_size`, the observed data is left-padded
with not-a-number markers to the latent length and the observation process
receives the mean and padded-observed series both sliced from offset
`i0_size + padding`, each slice of length `L - padding`. -/
theorem fit_mode_alignment (m : HospitalAdmissionsModel)
    (f : List ℚ → Option (List (Option ℚ)) → List ℚ)
    (data : List ℚ) (padding i0 : ℕ) (r : ℚ) (adm : List ℚ)
    (hobs : m.hosp_admission_obs_process_rv = some f)
    (hlat : m.latent_hosp_admissions_rv
        (m.basic_renewal data.length padding).latent_infections
      = some (r, adm))
    (hlen : adm.length = data.length + i0) :
    m.sample none (some data) padding = Except.ok
      ⟨(m.basic_renewal data.length padding).Rt,
       (m.basic_renewal data.length padding).latent_infections, r, adm,
       some (f (fitMean adm ((i0 : ℤ) + padding))
         (some (fitObserved data adm.length ((i0 : ℤ) + padding))))⟩
    ∧ (fitMean adm ((i0 : ℤ) + padding)).length = data.length - padding
    ∧ (fitObserved data adm.length ((i0 : ℤ) + padding)).length
        = data.length - padding := by
  have hoff : (adm.length : ℤ) - data.length + padding = (i0 : ℤ) + padding := by
    rw [hlen]
    push_cast
    ring
  refine ⟨?_, ?_, ?_⟩
  · have h := sample_fit_eval m f data padding r adm hobs hlat
    rwa [hoff] at h
  · unfold fitMean
    rw [pySlice_length_of_nonneg _ _ (by omega)]
    omega
  · unfold fitObserved
    rw [pySlice_length_of_nonneg _ _ (by omega)]
    have hpad : (pad_x_to_match_y (data.map some) adm.length
        (none : Option ℚ)).length = adm.length := by
      simp [pad_x_to_match_y]
      omega
    rw [hpad]
    omega

/-- Claim C10: in fit mode, whenever the latent admissions series is at least as
long as the observed data, the observed series actually delivered to the
observation process — not-a-number-pad to the latent length, then slice from
`i0_size + padding` — equals the observed data with its first `padding`
entries removed (`specObservedWindow`); in particular no padding marker
reaches the observation process. -/
theorem fit_mode_observed_refines_spec (m : HospitalAdmissionsModel)
    (f : List ℚ → Option (List (Option ℚ)) → List ℚ)
    (data : List ℚ) (padding : ℕ) (r : ℚ) (adm : List ℚ)
    (hobs : m.hosp_admission_obs_process_rv = some f)
    (hlat : m.latent_hosp_admissions_rv
        (m.basic_renewal data.length padding).latent_infections
      = some (r, adm))
    (hle : data.length ≤ adm.length) :
    m.sample none (some data) padding = Except.ok
      ⟨(m.basic_renewal data.length padding).Rt,
       (m.basic_renewal data.length padding).latent_infections, r, adm,
       some (f (fitMean adm ((adm.length : ℤ) - data.length + padding))
         (some (specObservedWindow data padding)))⟩ := by
  have h := sample_fit_eval m f data padding r adm hobs hlat
  rwa [fitObserved_eq_specWindow data adm.length padding hle] at h

/-- Claim C4: `HospitalAdmissionsModel.sample` raises a `ValueError` when neither
or both of `n_timepoints_to_simulate` and `data_observed_hosp_admissions`
are supplied.  The statement holds for every model instance `m`, so the
error is produced without consulting any sub-model or sub-process — no
partial side effects. -/
theorem sample_arg_check_errors (m : HospitalAdmissionsModel) (padding : ℕ)
    (n : ℕ) (data : List ℚ) :
    m.sample none none padding
      = Except.error
        "Either n_timepoints_to_simulate or data_observed_hosp_admissions must be passed."
    ∧ m.sample (some n) (some data) padding
      = Except.error
        "Cannot pass both n_timepoints_to_simulate and data_observed_hosp_admissions." := by
  constructor
  · rfl
  · rfl

/-- Claim C6: if no observation process is configured
(`hosp_admission_obs_process_rv = none`), every successful
`HospitalAdmissionsModel.sample` call — simulate or fit mode — returns
`observed_hosp_admissions = none`. -/
theorem no_obs_process_absent (m : HospitalAdmissionsModel)
    (n_timepoints_to_simulate : Option ℕ)
    (data_observed_hosp_admissions : Option (List ℚ)) (padding : ℕ)
    (s : HospModelSample)
    (hobs : m.hosp_admission_obs_process_rv = none)
    (h : m.sample n_timepoints_to_simulate data_observed_hosp_admissions
        padding = Except.ok s) :
    s.observed_hosp_admissions = none := by
  rcases n_timepoints_to_simulate with _ | n
  all_goals rcases data_observed_hosp_admissions with _ | data
  · have he : m.sample none none padding = Except.error
        "Either n_timepoints_to_simulate or data_observed_hosp_admissions must be passed." :=
      rfl
    rw [he] at h
    exact absurd h (by simp)
  · rcases hl : m.latent_hosp_admissions_rv
        (m.basic_renewal data.length padding).latent_infections
      with _ | ⟨r, adm⟩
    · rw [sample_latent_err_fit m data padding hl] at h
      exact absurd h (by simp)
    · rw [sample_fit_eval_gen m data padding r adm hl] at h
      replace h := Except.ok.inj h
      subst h
      simp [hobs]
  · rcases hl : m.latent_hosp_admissions_rv
        (m.basic_renewal n padding).latent_infections
      with _ | ⟨r, adm⟩
    · rw [sample_latent_err_simulate m n padding hl] at h
      exact absurd h (by simp)
    · rw [sample_simulate_eval m n padding r adm hl] at h
      replace h := Except.ok.inj h
      subst h
      simp [hobs]
  · have he : m.sample (some n) (some data) padding = Except.error
        "Cannot pass both n_timepoints_to_simulate and data_observed_hosp_admissions." :=
      rfl
    rw [he] at h
    exact absurd h (by simp)

/-- Claim C9: the `Rt` and `latent_infections` fields of every successful
`HospitalAdmissionsModel.sample` result are exactly those produced by the
inner renewal model's sample call at the resolved `n_timepoints` and
padding, passed through unchanged. -/
theorem inner_model_passthrough (m : HospitalAdmissionsModel)
    (n_timepoints_to_simulate : Option ℕ)
    (data_observed_hosp_admissions : Option (List ℚ)) (padding : ℕ)
    (s : HospModelSample)
    (h : m.sample n_timepoints_to_simulate data_observed_hosp_admissions
        padding = Except.ok s) :
    s.Rt = (m.basic_renewal
        (resolve_n_timepoints n_timepoints_to_simulate
          data_observed_hosp_admissions) padding).Rt
    ∧ s.latent_infections = (m.basic_renewal
        (resolve_n_timepoints n_timepoints_to_simulate
          data_observed_hosp_admissions) padding).latent_infections := by
  rcases n_timepoints_to_simulate with _ | n
  all_goals rcases data_observed_hosp_admissions with _ | data
  · have he : m.sample none none padding = Except.error
        "Either n_timepoints_to_simulate or data_observed_hosp_admissions must be passed." :=
      rfl
    rw [he] at h
    exact absurd h (by simp)
  · rcases hl : m.latent_hosp_admissions_rv
        (m.basic_renewal data.length padding).latent_infections
      with _ | ⟨r, adm⟩
    · rw [sample_latent_err_fit m data padding hl] at h
      exact absurd h (by simp)
    · rw [sample_fit_eval_gen m data padding r adm hl] at h
      replace h := Except.ok.inj h
      subst h
      exact ⟨rfl, rfl⟩
  · rcases hl : m.latent_hosp_admissions_rv
        (m.basic_renewal n padding).latent_infections
      with _ | ⟨r, adm⟩
    · rw [sample_latent_err_simulate m n padding hl] at h
      exact absurd h (by simp)
    · rw [sample_simulate_eval m n padding r adm hl] at h
      replace h := Except.ok.inj h
      subst h
      exact ⟨rfl, rfl⟩
  · have he : m.sample (some n) (some data) padding = Except.error
        "Cannot pass both n_timepoints_to_simulate and data_observed_hosp_admissions." :=
      rfl
    rw [he] at h
    exact absurd h (by simp)

/-- Claim C5 counterexample: a delay handle that is not a `RandomVariable`
(`is_random_variable = false`) does not make construction fail — the
component is built and stores the non-conforming delay handle, refuting the
claim that all four sub-process handles are type-checked at construction. -/
theorem delay_handle_unvalidated_cex :
    HospitalAdmissions.init ⟨false⟩ ⟨true⟩ none none
      = Except.ok ⟨⟨false⟩, ⟨true⟩, ⟨true⟩, ⟨true⟩⟩ := rfl

/-- Claim C5 amended: construction type-checks the rate, weekday-effect and
reporting-probability handles (assertion failure exactly when one of those
three is non-conforming, fail-fast at construction time); the
delay-distribution handle is stored without validation, so construction
succeeds if and only if the three checked handles conform, regardless of
the delay handle. -/
theorem construction_validates_three_handles
    (infection_to_admission_interval_rv infect_hosp_rate_rv
      day_of_week_effect_rv hosp_report_prob_rv : RVHandle) :
    (HospitalAdmissions.init infection_to_admission_interval_rv
        infect_hosp_rate_rv (some day_of_week_effect_rv)
        (some hosp_report_prob_rv)).isOk
      = (infect_hosp_rate_rv.is_random_variable
          && day_of_week_effect_rv.is_random_variable
          && hosp_report_prob_rv.is_random_variable) := by
  obtain ⟨hr⟩ := infect_hosp_rate_rv
  obtain ⟨hw⟩ := day_of_week_effect_rv
  obtain ⟨hp⟩ := hosp_report_prob_rv
  cases hr <;> cases hw <;> cases hp <;> rfl

/-- Claim C3 witness: `demoModel` in fit mode on data `[10, 20]` with padding 1 and
`i0_size = 2` (latent length 4): both slices handed to the observation
process have length `2 - 1 = 1`. -/
theorem fit_mode_alignment_witness :
    demoModel.sample none (some [10, 20]) 1 = Except.ok
      ⟨(demoModel.basic_renewal ([10, 20] : List ℚ).length 1).Rt,
       (demoModel.basic_renewal ([10, 20] : List ℚ).length 1).latent_infections,
       1/2, List.replicate 4 1,
       some (fitMean (List.replicate 4 1) ((2 : ℤ) + 1))⟩
    ∧ (fitMean (List.replicate 4 1) ((2 : ℤ) + 1)).length
        = ([10, 20] : List ℚ).length - 1
    ∧ (fitObserved [10, 20] (List.replicate (4 : ℕ) (1 : ℚ)).length
        ((2 : ℤ) + 1)).length = ([10, 20] : List ℚ).length - 1 :=
  fit_mode_alignment demoModel (fun mu _ => mu) [10, 20] 1 2 (1/2)
    (List.replicate 4 1) rfl rfl rfl

/-- Claim C10 witness: `demoModel` in fit mode on data `[10, 20]` with padding 1:
the observation process receives exactly `[some 20]`, the observed data with
its first entry removed and no not-a-number marker. -/
theorem fit_mode_observed_refines_spec_witness :
    demoModel.sample none (some [10, 20]) 1 = Except.ok
      ⟨(demoModel.basic_renewal ([10, 20] : List ℚ).length 1).Rt,
       (demoModel.basic_renewal ([10, 20] : List ℚ).length 1).latent_infections,
       1/2, List.replicate 4 1,
       some (fitMean (List.replicate 4 1)
         (((List.replicate (4 : ℕ) (1 : ℚ)).length : ℤ)
           - ([10, 20] : List ℚ).length + 1))⟩ :=
  fit_mode_observed_refines_spec demoModel (fun mu _ => mu) [10, 20] 1 (1/2)
    (List.replicate 4 1) rfl rfl (by decide)

/-- Claim C6 witness: `mNoObs` (no observation process) sampled in simulate mode
returns a record whose `observed_hosp_admissions` is absent. -/
theorem no_obs_process_absent_witness :
    (⟨[3], List.replicate 5 1, 1/2, List.replicate 5 1, none⟩ :
        HospModelSample).observed_hosp_admissions = none :=
  no_obs_process_absent mNoObs (some 3) none 0
    ⟨[3], List.replicate 5 1, 1/2, List.replicate 5 1, none⟩ rfl (by rfl)

/-- Claim C9 witness: for `demoModel` in simulate mode the returned `Rt` and
`latent_infections` are the inner renewal model's values. -/
theorem inner_model_passthrough_witness :
    (⟨[3], List.replicate 5 1, 1/2, List.replicate 5 1,
        some (List.replicate 5 1)⟩ : HospModelSample).Rt
      = (demoModel.basic_renewal (resolve_n_timepoints (some 3) none) 0).Rt
    ∧ (⟨[3], List.replicate 5 1, 1/2, List.replicate 5 1,
        some (List.replicate 5 1)⟩ : HospModelSample).latent_infections
      = (demoModel.basic_renewal (resolve_n_timepoints (some 3) none)
          0).latent_infections :=
  inner_model_passthrough demoModel (some 3) none 0
    ⟨[3], List.replicate 5 1, 1/2, List.replicate 5 1,
      some (List.replicate 5 1)⟩ (by rfl)
